import Mathlib

/-!
Shallow embedding of the meal-plan reshaping core of `src/app.py`.

The JSON value produced by the extraction step is modelled by structured
types with `Option` fields: a `none` field models a JSON key that is
absent from the dictionary, mirroring the Python code's pervasive use of
`dict.get(key, default)`.  Lists model JSON arrays, `String` models JSON
strings.  The Streamlit UI layer is out of scope; the two external
services (LlamaParse, OpenAI) are modelled as explicit function
parameters so that the number of service invocations can be counted.
-/

namespace NutriParsing

/-- One food entry of a meal: JSON object with optional keys
`alimento` (name) and `quantita` (quantity). -/
structure FoodItem where
  alimento : Option String
  quantita : Option String
deriving DecidableEq

/-- One meal slot: JSON object with optional keys `principale` and
`alternative`, each a list of food items. -/
structure MealSlot where
  principale : Option (List FoodItem)
  alternative : Option (List FoodItem)
deriving DecidableEq

/-- One day of the plan: JSON object with an optional day label
`giorno` and the five (optional) meal-slot keys used by `app.py`. -/
structure DayPlan where
  giorno : Option String
  colazione : Option MealSlot
  spuntino_mattina : Option MealSlot
  pranzo : Option MealSlot
  spuntino_pomeriggio : Option MealSlot
  cena : Option MealSlot
deriving DecidableEq

/-- The root JSON object returned by the extraction step: optional key
`giorni` (list of days) and optional key `note/consigli` (list of
strings), the latter called `note` here because `/` cannot occur in a
Lean field name. -/
structure MealPlanJson where
  giorni : Option (List DayPlan)
  note : Option (List String)
deriving DecidableEq

/-- The fixed list of meal-slot keys iterated over by both
`json_to_text` and `get_weekly_plan` in `app.py`. -/
def pastoKeys : List String :=
  ["colazione", "spuntino_mattina", "pranzo", "spuntino_pomeriggio", "cena"]

/-- `giorno_data.get(pasto_key, {})` specialised to the five known keys:
field lookup by key name on a `DayPlan`. -/
def getSlot (g : DayPlan) (k : String) : Option MealSlot :=
  if k = "colazione" then g.colazione
  else if k = "spuntino_mattina" then g.spuntino_mattina
  else if k = "pranzo" then g.pranzo
  else if k = "spuntino_pomeriggio" then g.spuntino_pomeriggio
  else if k = "cena" then g.cena
  else none

/-! ### Table projector (`get_weekly_plan`, lines 207-238 of `app.py`)

`get_weekly_plan` builds a list of Python dicts (one per day, keys
inserted in the fixed order `giorno` then the five meal keys) and hands
it to `pd.DataFrame(rows)`.  A pandas `DataFrame` built from a list of
records takes as columns the union of the record keys in order of first
appearance (so an empty record list yields a frame with no columns),
and fills each cell from the record, `NaN` (here `none`) when a record
lacks a key. -/

/-- A pandas `DataFrame`: a column list and one list of cells per row. -/
structure Frame where
  columns : List String
  cells : List (List (Option String))
deriving DecidableEq

/-- Fold one record's keys into an accumulated column list, keeping
first-appearance order and skipping keys already present (pandas column
inference). -/
def addCols (acc : List String) (r : List (String × String)) : List String :=
  r.foldl (fun a kv => if a.contains kv.fst then a else a ++ [kv.fst]) acc

/-- Columns of `pd.DataFrame(records)`: union of all record keys, in
order of first appearance. -/
def frameCols (records : List (List (String × String))) : List String :=
  records.foldl addCols []

/-- One row of the frame: each column's value looked up in the record
(`none` models pandas `NaN` for a missing key). -/
def rowFor (cols : List String) (r : List (String × String)) : List (Option String) :=
  cols.map fun c => (r.find? fun kv => kv.fst == c).map Prod.snd

/-- `pd.DataFrame(records)` for a list of key/value records. -/
def dataFrameOfRecords (records : List (List (String × String))) : Frame :=
  { columns := frameCols records
    cells := records.map (rowFor (frameCols records)) }

/-- `f"{alimento} ({quantita})"` with the projector's defaults:
`item.get("alimento", "")` and `item.get("quantita", "")`. -/
def tableItemStr (item : FoodItem) : String :=
  item.alimento.getD "" ++ " (" ++ item.quantita.getD "" ++ ")"

/-- The cell built for one meal slot by `get_weekly_plan`: primary items
formatted and collected, then — only when the `alternative` list is
present and non-empty (Python truthiness of `pasto.get("alternative")`)
— one final entry `Alternative: ...` with the alternatives comma-joined;
the entries are newline-joined, an empty list giving `""`. -/
def slotCell (s : Option MealSlot) : String :=
  let pasto := s.getD { principale := none, alternative := none }
  let contenuto := (pasto.principale.getD []).map tableItemStr
  let contenuto :=
    if (pasto.alternative.getD []).isEmpty then contenuto
    else contenuto ++
      ["Alternative: " ++
        String.intercalate ", " ((pasto.alternative.getD []).map tableItemStr)]
  if contenuto.isEmpty then "" else String.intercalate "\n" contenuto

/-- The record (`giorno_row`) built for one day: the `giorno` key
(default `""`) followed by the five meal keys in the loop's order. -/
def dayRecord (g : DayPlan) : List (String × String) :=
  [("giorno", g.giorno.getD ""),
   ("colazione", slotCell g.colazione),
   ("spuntino_mattina", slotCell g.spuntino_mattina),
   ("pranzo", slotCell g.pranzo),
   ("spuntino_pomeriggio", slotCell g.spuntino_pomeriggio),
   ("cena", slotCell g.cena)]

/-- `get_weekly_plan(json_output)`: one record per entry of
`json_output.get("giorni", [])`, handed to `pd.DataFrame`. -/
def get_weekly_plan (jsonOutput : MealPlanJson) : Frame :=
  dataFrameOfRecords ((jsonOutput.giorni.getD []).map dayRecord)

/-- The six columns of the weekly table when at least one day exists. -/
def weeklyCols : List String :=
  ["giorno", "colazione", "spuntino_mattina", "pranzo", "spuntino_pomeriggio", "cena"]

/-! ### Text renderer (`json_to_text`, lines 161-203 of `app.py`) -/

/-- Python `str.replace("_", " ")` for a single-character pattern. -/
def replaceUnderscores (s : String) : String :=
  String.mk (s.toList.map fun c => if c = '_' then ' ' else c)

/-- Python `str.capitalize()`: first character upper-cased, the rest
lower-cased. -/
def pyCapitalize (s : String) : String :=
  match s.toList with
  | [] => ""
  | c :: cs => String.mk (Char.toUpper c :: cs.map Char.toLower)

/-- The human-readable slot header text:
`pasto_key.replace("_", " ").capitalize()`. -/
def pastoLabel (k : String) : String :=
  pyCapitalize (replaceUnderscores k)

/-- One bulleted item line of the text report:
`f"    • {item.get('alimento', 'N/A')}: {item.get('quantita', 'N/A')}"`. -/
def textItemLine (item : FoodItem) : String :=
  "    • " ++ item.alimento.getD "N/A" ++ ": " ++ item.quantita.getD "N/A"

/-- The lines appended for one meal slot by `json_to_text`: the slot
header, then the primary block (a `Nessun dato` marker when the primary
list is missing or empty), then the alternatives block only when the
alternative list is present and non-empty. -/
def renderSlotLines (k : String) (s : Option MealSlot) : List String :=
  let pasto := s.getD { principale := none, alternative := none }
  let principale := pasto.principale.getD []
  let alternative := pasto.alternative.getD []
  (("\n" ++ pastoLabel k ++ ":") ::
    (if principale.isEmpty then ["  - Principale: Nessun dato"]
     else "  - Principale:" :: principale.map textItemLine)) ++
  (if alternative.isEmpty then []
   else "  - Alternative:" :: alternative.map textItemLine)

/-- The lines appended for one day: the `Giorno:` header (label default
`Non specificato`), the five slot blocks in the fixed key order, and the
`"\n" + "-"*30 + "\n"` separator. -/
def renderDayLines (g : DayPlan) : List String :=
  ("Giorno: " ++ g.giorno.getD "Non specificato") ::
    ((pastoKeys.map fun k => renderSlotLines k (getSlot g k)).flatten ++
      ["\n" ++ String.mk (List.replicate 30 '-') ++ "\n"])

/-- The trailing notes block: emitted only when the `note/consigli` key
is present and its list non-empty (`"note/consigli" in json_data and
json_data["note/consigli"]`). -/
def notesLines (p : MealPlanJson) : List String :=
  match p.note with
  | none => []
  | some l => if l.isEmpty then [] else "Note/Consigli:" :: l.map fun n => "• " ++ n

/-- `json_to_text(json_data)`: the fixed diagnostic string for a `None`
input or an input without the `giorni` key (`not json_data or "giorni"
not in json_data` — a falsy dict is necessarily empty and hence lacks
`giorni`); otherwise all day blocks followed by the notes block,
newline-joined. -/
def json_to_text : Option MealPlanJson → String
  | none => "Dati JSON non validi o mancanti."
  | some p =>
    match p.giorni with
    | none => "Dati JSON non validi o mancanti."
    | some giorni =>
      String.intercalate "\n" ((giorni.map renderDayLines).flatten ++ notesLines p)

/-! ### Extraction orchestrator (`process_pdf_llamaparse` lines 30-60,
`process_md_gpt` lines 63-158 of `app.py`)

The two external services are modelled as explicit function arguments;
each embedded operation additionally returns the number of times the
external service was invoked, so that "no network call is attempted"
is a provable statement.  The distinct `st.error`/`return None` exits of
the Python code are told apart by explicit result constructors named
after the spec's error taxonomy. -/

/-- Outcome of `process_pdf_llamaparse`: markdown text, or the branch
taken on a missing credential, an empty parse result, or an exception
from the service. -/
inductive PdfResult where
  | ok (markdown : String)
  | configError
  | emptyResult
  | upstream (msg : String)
deriving DecidableEq

/-- `process_pdf_llamaparse(pdf_file_path)` with the LlamaParse call
(`parser.load_data`) passed explicitly; the second component counts its
invocations.  Credential truthiness: an absent key is the empty
string. -/
def process_pdf_llamaparse (apiKey : String) (pdfFilePath : String)
    (loadData : String → Except String (List String)) : PdfResult × Nat :=
  if apiKey = "" then (PdfResult.configError, 0)
  else
    match loadData pdfFilePath with
    | Except.error e => (PdfResult.upstream e, 1)
    | Except.ok documents =>
      if documents.isEmpty then (PdfResult.emptyResult, 1)
      else
        (PdfResult.ok (documents.foldl (fun acc t => acc ++ t ++ "\n") ""), 1)

/-- Outcome of `process_md_gpt`: a parsed plan, or the branch taken on a
missing credential, empty markdown input, a response that is not valid
JSON (carrying the raw response text, which the code shows via
`st.code` for diagnostics), or any other service exception. -/
inductive GptResult where
  | ok (plan : MealPlanJson)
  | configError
  | noContent
  | malformed (raw : String)
  | upstream (msg : String)
deriving DecidableEq

/-- `process_md_gpt(markdown_content)` with the chat-completion call
passed explicitly (returning the response message content) and
`json.loads` passed as `jsonLoads` (`none` models a `JSONDecodeError`);
the second component counts service invocations. -/
def process_md_gpt (apiKey : String) (markdownContent : String)
    (complete : Unit → Except String String)
    (jsonLoads : String → Option MealPlanJson) : GptResult × Nat :=
  if apiKey = "" then (GptResult.configError, 0)
  else if markdownContent = "" then (GptResult.noContent, 0)
  else
    match complete () with
    | Except.error e => (GptResult.upstream e, 1)
    | Except.ok raw =>
      match jsonLoads raw with
      | some plan => (GptResult.ok plan, 1)
      | none => (GptResult.malformed raw, 1)

/-- The concatenation the code actually builds for the parsed segments:
every segment followed by one newline. -/
def concatWithNewlines : List String → String
  | [] => ""
  | d :: ds => d ++ "\n" ++ concatWithNewlines ds

/-- Stated from the spec's words for comparison with the code ("each
segment separated from the next by a single newline"): the segments
joined with a newline separator, no trailing newline. -/
def specJoinSegments (docs : List String) : String :=
  String.intercalate "\n" docs

/-! ### Substring search used to state containment properties -/

/-- `pat` occurs (as a contiguous run) somewhere in the character
list. -/
def hasSubstrAux (pat : List Char) : List Char → Bool
  | [] => pat.isEmpty
  | c :: rest => pat.isPrefixOf (c :: rest) || hasSubstrAux pat rest

/-- `pat` is a substring of `s`. -/
def containsSub (s pat : String) : Bool :=
  hasSubstrAux pat.toList s.toList

/-! ### Concrete plans used to evaluate the embedded functions -/

/-- A day object with every key absent. -/
def bareDay : DayPlan :=
  { giorno := none, colazione := none, spuntino_mattina := none,
    pranzo := none, spuntino_pomeriggio := none, cena := none }

/-- A plan with a single, fully key-less day. -/
def bareDayPlan : MealPlanJson :=
  { giorni := some [bareDay], note := none }

/-- A meal slot with no primary items and one alternative
`Free meal (-)`. -/
def freeMealSlot : MealSlot :=
  { principale := some []
    alternative := some [{ alimento := some "Free meal", quantita := some "-" }] }

/-- A plan with one day whose lunch is `freeMealSlot` and whose other
slot keys are absent. -/
def freeMealPlan : MealPlanJson :=
  { giorni := some
      [{ giorno := some "Lunedi", colazione := none, spuntino_mattina := none,
         pranzo := some freeMealSlot, spuntino_pomeriggio := none, cena := none }]
    note := none }

/-- A meal slot with both lists present and empty. -/
def emptyListsSlot : MealSlot :=
  { principale := some [], alternative := some [] }

/-- The round-trip day: `Monday`, breakfast primary `Oatmeal (50g)`,
every other slot present with empty lists, no alternatives. -/
def mondayOatmealDay : DayPlan :=
  { giorno := some "Monday"
    colazione := some
      { principale := some [{ alimento := some "Oatmeal", quantita := some "50g" }]
        alternative := some [] }
    spuntino_mattina := some emptyListsSlot
    pranzo := some emptyListsSlot
    spuntino_pomeriggio := some emptyListsSlot
    cena := some emptyListsSlot }

/-- The round-trip plan: one Monday day, no notes. -/
def mondayOatmealPlan : MealPlanJson :=
  { giorni := some [mondayOatmealDay], note := some [] }

/-! ## Helper lemmas -/

/-- Folding any single day record into an empty column accumulator
yields exactly the six weekly columns: the record's keys are fixed. -/
theorem addCols_nil_dayRecord (g : DayPlan) : addCols [] (dayRecord g) = weeklyCols := rfl

/-- Folding a day record into the full weekly column list changes
nothing: every key is already present. -/
theorem addCols_weekly_dayRecord (g : DayPlan) :
    addCols weeklyCols (dayRecord g) = weeklyCols := rfl

/-- Folding any further day records over the full weekly column list
leaves it unchanged. -/
theorem foldl_addCols_weekly (gs : List DayPlan) :
    List.foldl addCols weeklyCols (gs.map dayRecord) = weeklyCols := by
  induction gs with
  | nil => rfl
  | cons g gs ih =>
    simp only [List.map_cons, List.foldl_cons, addCols_weekly_dayRecord, ih]

/-- Column inference over a non-empty list of day records produces the
six weekly columns. -/
theorem frameCols_dayRecords (d : DayPlan) (ds : List DayPlan) :
    frameCols ((d :: ds).map dayRecord) = weeklyCols := by
  simp only [frameCols, List.map_cons, List.foldl_cons, addCols_nil_dayRecord]
  exact foldl_addCols_weekly ds

/-! ## Claims -/

/-- C1 (amended): for every `MealPlanJson`, the weekly table has exactly
one row per day, rows in the same order as (and computed from) the input
days; when the day list is non-empty the table has exactly the six
columns (day label plus the five meal slots); but when the day list is
empty `pd.DataFrame([])` yields a table with no columns at all. -/
theorem weekly_plan_shape (p : MealPlanJson) :
    (get_weekly_plan p).cells.length = (p.giorni.getD []).length ∧
    (get_weekly_plan p).cells =
      (p.giorni.getD []).map (fun g => rowFor (get_weekly_plan p).columns (dayRecord g)) ∧
    (p.giorni.getD [] ≠ [] →
      (get_weekly_plan p).columns = weeklyCols ∧ (get_weekly_plan p).columns.length = 6) ∧
    (p.giorni.getD [] = [] → (get_weekly_plan p).columns = []) := by
  refine ⟨?_, ?_, ?_, ?_⟩
  · simp [get_weekly_plan, dataFrameOfRecords]
  · simp [get_weekly_plan, dataFrameOfRecords, List.map_map, Function.comp]
  · intro h
    obtain ⟨d, ds, hd⟩ := List.exists_cons_of_ne_nil h
    have hcols : (get_weekly_plan p).columns = weeklyCols := by
      simp only [get_weekly_plan, dataFrameOfRecords, hd]
      exact frameCols_dayRecords d ds
    exact ⟨hcols, by rw [hcols]; rfl⟩
  · intro h
    simp [get_weekly_plan, dataFrameOfRecords, frameCols, h]

/-- C1 witness: the shape theorem evaluated on a concrete one-day plan. -/
theorem weekly_plan_shape_witness :
    (get_weekly_plan bareDayPlan).columns = weeklyCols ∧
    (get_weekly_plan bareDayPlan).columns.length = 6 :=
  (weekly_plan_shape bareDayPlan).2.2.1 (by decide)

/-- C1 counterexample: on a plan whose day list is empty the weekly
table has zero columns, not six, refuting the claim's empty-day-list
case. -/
theorem weekly_plan_empty_days_zero_columns :
    (get_weekly_plan { giorni := some [], note := none }).columns = [] ∧
    (get_weekly_plan { giorni := some [], note := none }).columns.length ≠ 6 := by
  exact ⟨rfl, by decide⟩

/-- C2 (amended): a weekly-table cell is the primary items rendered as
`name (quantity)` joined by newlines, followed — only when the
alternative list is non-empty — by one final line whose label is the
code's literal `Alternative: ` (not `Alternatives: `) with the
alternatives comma-joined; a slot with both lists empty yields the
empty cell. -/
theorem slot_cell_format (pasto : MealSlot) :
    (pasto.principale.getD [] = [] → pasto.alternative.getD [] = [] →
      slotCell (some pasto) = "") ∧
    (pasto.alternative.getD [] = [] →
      slotCell (some pasto) =
        String.intercalate "\n" ((pasto.principale.getD []).map tableItemStr)) ∧
    (pasto.alternative.getD [] ≠ [] →
      slotCell (some pasto) =
        String.intercalate "\n" ((pasto.principale.getD []).map tableItemStr ++
          ["Alternative: " ++
            String.intercalate ", " ((pasto.alternative.getD []).map tableItemStr)])) := by
  refine ⟨?_, ?_, ?_⟩
  · intro h1 h2
    simp [slotCell, h1, h2]
  · intro h2
    rcases hp : pasto.principale.getD [] with _ | ⟨a, l⟩ <;>
      simp [slotCell, h2, hp, String.intercalate]
  · intro h2
    have hie : (pasto.alternative.getD []).isEmpty = false := by
      simpa [List.isEmpty_iff] using h2
    rcases hp : pasto.principale.getD [] with _ | ⟨a, l⟩ <;>
      simp [slotCell, hie, hp]

/-- C2 witness: a slot with empty primaries and the single alternative
`Free meal (-)` renders to the single alternatives line. -/
theorem slot_cell_format_witness :
    slotCell (some freeMealSlot) = "Alternative: Free meal (-)" :=
  ((slot_cell_format freeMealSlot).2.2 (by decide)).trans rfl

/-- C2 counterexample: on the plan whose lunch has primary `[]` and the
single alternative `Free meal (-)`, the lunch cell the code produces is
`Alternative: Free meal (-)`, which differs from the claimed exact value
`Alternatives: Free meal (-)`. -/
theorem lunch_cell_label_counterexample :
    (get_weekly_plan freeMealPlan).cells =
      [[some "Lunedi", some "", some "",
        some "Alternative: Free meal (-)", some "", some ""]] ∧
    "Alternative: Free meal (-)" ≠ "Alternatives: Free meal (-)" :=
  ⟨rfl, by decide⟩

/-- C3: `json_to_text` maps a `None` input, and any input without the
`giorni` key, to the fixed diagnostic string (and, being a total
function, raises no error). -/
theorem json_to_text_invalid_input :
    json_to_text none = "Dati JSON non validi o mancanti." ∧
    ∀ p : MealPlanJson, p.giorni = none →
      json_to_text (some p) = "Dati JSON non validi o mancanti." := by
  refine ⟨rfl, ?_⟩
  intro p h
  simp [json_to_text, h]

/-- C3 witness: the diagnostic on a concrete `giorni`-less object. -/
theorem json_to_text_invalid_witness :
    json_to_text (some { giorni := none, note := none }) =
      "Dati JSON non validi o mancanti." :=
  json_to_text_invalid_input.2 { giorni := none, note := none } rfl

/-- C4: the embedded `json_to_text` is a pure function of its argument:
two invocations on an identical plan produce identical output (the
embedding is a total Lean function, so no side effect or external call
can influence the result). -/
theorem json_to_text_deterministic (a b : Option MealPlanJson) (h : a = b) :
    json_to_text a = json_to_text b := by
  rw [h]

/-- C4 witness: determinism evaluated at the concrete Monday plan. -/
theorem json_to_text_deterministic_witness :
    json_to_text (some mondayOatmealPlan) = json_to_text (some mondayOatmealPlan) :=
  json_to_text_deterministic (some mondayOatmealPlan) (some mondayOatmealPlan) rfl

set_option maxRecDepth 100000 in
/-- C5: on the one-day Monday/Oatmeal plan the text report contains the
`Monday` day header, a breakfast section listing `Oatmeal: 50g`, and the
`Nessun dato` (no data) marker for each of the other four slots; the
weekly table has exactly one row, its breakfast cell is `Oatmeal (50g)`
and every other meal cell is empty. -/
theorem monday_roundtrip :
    containsSub (json_to_text (some mondayOatmealPlan)) "Giorno: Monday" = true ∧
    containsSub (json_to_text (some mondayOatmealPlan))
      "Colazione:\n  - Principale:\n    • Oatmeal: 50g" = true ∧
    containsSub (json_to_text (some mondayOatmealPlan))
      "Spuntino mattina:\n  - Principale: Nessun dato" = true ∧
    containsSub (json_to_text (some mondayOatmealPlan))
      "Pranzo:\n  - Principale: Nessun dato" = true ∧
    containsSub (json_to_text (some mondayOatmealPlan))
      "Spuntino pomeriggio:\n  - Principale: Nessun dato" = true ∧
    containsSub (json_to_text (some mondayOatmealPlan))
      "Cena:\n  - Principale: Nessun dato" = true ∧
    (get_weekly_plan mondayOatmealPlan).cells =
      [[some "Monday", some "Oatmeal (50g)", some "", some "", some "", some ""]] ∧
    (get_weekly_plan mondayOatmealPlan).columns = weeklyCols :=
  ⟨rfl, rfl, rfl, rfl, rfl, rfl, rfl, rfl⟩

/-- C6: for any meal slot with no data — the slot key absent, or its
primary and alternative lists missing or empty — the renderer still
emits the slot header followed by the `Nessun dato` marker for the
primary block, the projector emits the empty cell, and every day record
keeps all six keys (no column is ever omitted); both functions are
total, so no error is raised. -/
theorem slot_no_data_rendering (k : String) (s : Option MealSlot) (g : DayPlan)
    (_hk : k ∈ pastoKeys)
    (h1 : (s.getD { principale := none, alternative := none }).principale.getD [] = [])
    (h2 : (s.getD { principale := none, alternative := none }).alternative.getD [] = []) :
    renderSlotLines k s =
      ["\n" ++ pastoLabel k ++ ":", "  - Principale: Nessun dato"] ∧
    slotCell s = "" ∧
    (dayRecord g).map Prod.fst = weeklyCols := by
  refine ⟨?_, ?_, rfl⟩
  · simp [renderSlotLines, h1, h2]
  · simp [slotCell, h1, h2]

/-- C6 witness: the no-data rendering evaluated at an absent `pranzo`
slot and the fully key-less day. -/
theorem slot_no_data_rendering_witness :
    renderSlotLines "pranzo" none =
      ["\n" ++ pastoLabel "pranzo" ++ ":", "  - Principale: Nessun dato"] ∧
    slotCell none = "" ∧
    (dayRecord bareDay).map Prod.fst = weeklyCols :=
  slot_no_data_rendering "pranzo" none bareDay (by decide) rfl rfl

/-- C7: with an absent credential (the empty string, Python falsiness)
both orchestrator operations return their configuration-error outcome
and the external service is invoked zero times, for every possible
service behaviour. -/
theorem missing_credentials_no_calls :
    ∀ (pdfFilePath : String) (loadData : String → Except String (List String))
      (markdownContent : String) (complete : Unit → Except String String)
      (jsonLoads : String → Option MealPlanJson),
      process_pdf_llamaparse "" pdfFilePath loadData = (PdfResult.configError, 0) ∧
      process_md_gpt "" markdownContent complete jsonLoads = (GptResult.configError, 0) := by
  intro _ _ _ _ _
  exact ⟨rfl, rfl⟩

/-- C8: whenever the language-model response body fails JSON parsing
(`jsonLoads raw = none`, a `JSONDecodeError`), `process_md_gpt` returns
the malformed-response outcome — never a structured result — and the
raw response text is carried inside that outcome for diagnostics. -/
theorem malformed_response_kept (apiKey markdownContent raw : String)
    (complete : Unit → Except String String)
    (jsonLoads : String → Option MealPlanJson)
    (hk : apiKey ≠ "") (hm : markdownContent ≠ "")
    (hc : complete () = Except.ok raw) (hj : jsonLoads raw = none) :
    process_md_gpt apiKey markdownContent complete jsonLoads =
      (GptResult.malformed raw, 1) := by
  simp [process_md_gpt, hk, hm, hc, hj]

/-- C8 witness: the malformed-response outcome on a concrete non-JSON
response body. -/
theorem malformed_response_kept_witness :
    process_md_gpt "k" "m" (fun _ => Except.ok "not json") (fun _ => none) =
      (GptResult.malformed "not json", 1) :=
  malformed_response_kept "k" "m" "not json" _ _ (by decide) (by decide) rfl rfl

/-- The loop `parsed_content += doc.text + "\n"` is the terminated
concatenation, for any starting accumulator. -/
theorem foldl_concat_newlines (docs : List String) (acc : String) :
    docs.foldl (fun a t => a ++ t ++ "\n") acc = acc ++ concatWithNewlines docs := by
  induction docs generalizing acc with
  | nil => simp [concatWithNewlines]
  | cons d ds ih =>
    rw [List.foldl_cons, ih]
    simp [concatWithNewlines, String.append_assoc]

/-- C9 (amended): for every non-empty segment list returned by the
parsing service, `process_pdf_llamaparse` returns the segments
concatenated in original order with each segment followed by a single
newline — i.e. newline-terminated, which leaves one trailing newline
after the last segment rather than newline-separated. -/
theorem parsed_segments_concat (apiKey pdfFilePath : String)
    (loadData : String → Except String (List String)) (documents : List String)
    (hk : apiKey ≠ "") (hd : loadData pdfFilePath = Except.ok documents)
    (hne : documents ≠ []) :
    process_pdf_llamaparse apiKey pdfFilePath loadData =
      (PdfResult.ok (concatWithNewlines documents), 1) := by
  have hie : documents.isEmpty = false := by simp [List.isEmpty_iff, hne]
  simp [process_pdf_llamaparse, hk, hd, hie, foldl_concat_newlines]

/-- C9 witness: the concatenation evaluated on a one-segment result. -/
theorem parsed_segments_concat_witness :
    process_pdf_llamaparse "k" "f" (fun _ => Except.ok ["x"]) =
      (PdfResult.ok (concatWithNewlines ["x"]), 1) :=
  parsed_segments_concat "k" "f" _ ["x"] (by decide) rfl (by decide)

/-- C9 counterexample: on the two-segment result `["a", "b"]` the code
returns `"a\nb\n"`, which is not the newline-separated join `"a\nb"`
the claim describes. -/
theorem parsed_segments_trailing_newline :
    process_pdf_llamaparse "k" "f" (fun _ => Except.ok ["a", "b"]) =
      (PdfResult.ok "a\nb\n", 1) ∧
    "a\nb\n" ≠ specJoinSegments ["a", "b"] :=
  ⟨rfl, by decide⟩

/-- C10: a food item with a missing name or quantity key still renders:
the text renderer substitutes the literal `N/A` for each missing field
and the table projector substitutes the empty string, so neither
rendering function needs the fields to be present. -/
theorem missing_item_fields_placeholders (a q : String) :
    textItemLine { alimento := none, quantita := none } = "    • N/A: N/A" ∧
    textItemLine { alimento := none, quantita := some q } = "    • N/A: " ++ q ∧
    textItemLine { alimento := some a, quantita := none } = "    • " ++ a ++ ": N/A" ∧
    tableItemStr { alimento := none, quantita := none } = " ()" ∧
    tableItemStr { alimento := none, quantita := some q } = " (" ++ q ++ ")" ∧
    tableItemStr { alimento := some a, quantita := none } = a ++ " ()" := by
  have e1 : (": " : String) ++ "N/A" = ": N/A" := rfl
  have e2 : (" (" : String) ++ ")" = " ()" := rfl
  refine ⟨rfl, rfl, ?_, rfl, rfl, ?_⟩
  · simp [textItemLine, String.append_assoc, e1]
  · simp [tableItemStr, String.append_assoc, e2]

end NutriParsing
